import Mathlib

/-!
Shallow embedding of the `transaction-builder` repository.

Two source files are embedded:

* `src/utils/sui.ts` — the Sui address validator (a pure string-format
  check) and the Sui coin-type validator (a remote metadata lookup whose
  outcome is passed in here as an explicit `Except` value).
* the Pump.fun token-launch helper (`uploadMetadata`,
  `createTokenTransaction`, `launchPumpFunToken`) — every network call and
  fallible body read is passed in as an explicit `Except`-valued
  environment, and every issued request is recorded in a trace so that
  "which requests were sent" is observable.

JavaScript exceptions are modelled with `Except String`; JS numbers that
the code only passes through (amount, slippage, priorityFee) are modelled
as `ℚ` (NaN, which is not representable, is ignored); the JS `x || d`
idiom on numbers maps `none` and `some 0` to the default `d`.  Byte
sequences are `List Nat` with values below 256.  `btoa` composed with
`String.fromCharCode` is embedded as a base64 encoder over byte lists,
together with a decoder and a roundtrip theorem.  Definitions come first,
concrete witness data next, and all lemmas and claim theorems follow.
-/

/-- The standard base64 alphabet used by `btoa`. -/
def b64Alphabet : List Char :=
  ['A', 'B', 'C', 'D', 'E', 'F', 'G', 'H', 'I', 'J', 'K', 'L', 'M',
   'N', 'O', 'P', 'Q', 'R', 'S', 'T', 'U', 'V', 'W', 'X', 'Y', 'Z',
   'a', 'b', 'c', 'd', 'e', 'f', 'g', 'h', 'i', 'j', 'k', 'l', 'm',
   'n', 'o', 'p', 'q', 'r', 's', 't', 'u', 'v', 'w', 'x', 'y', 'z',
   '0', '1', '2', '3', '4', '5', '6', '7', '8', '9', '+', '/']

/-- Encode one sextet (a value below 64) as a base64 character. -/
def encSextet (n : Nat) : Char := b64Alphabet.getD n '?'

/-- Decode one base64 character back to its sextet value. -/
def decSextet (c : Char) : Option Nat := b64Alphabet.indexOf? c

/-- Base64-encode a byte list, three bytes to four characters, with the
standard `=` padding that `btoa` produces. -/
def encodeB64Chars : List Nat → List Char
  | [] => []
  | [a] => [encSextet (a / 4), encSextet (a % 4 * 16), '=', '=']
  | [a, b] => [encSextet (a / 4), encSextet (a % 4 * 16 + b / 16), encSextet (b % 16 * 4), '=']
  | a :: b :: c :: rest =>
      encSextet (a / 4) :: encSextet (a % 4 * 16 + b / 16) ::
      encSextet (b % 16 * 4 + c / 64) :: encSextet (c % 64) :: encodeB64Chars rest

/-- Base64-decode a character list back to a byte list (the inverse of
`encodeB64Chars`; `none` on input that is not a base64 encoding). -/
def decodeB64Chars : List Char → Option (List Nat)
  | [] => some []
  | c1 :: c2 :: c3 :: c4 :: rest =>
      if c3 = '=' ∧ c4 = '=' ∧ rest = [] then
        match decSextet c1, decSextet c2 with
        | some s1, some s2 => some [s1 * 4 + s2 / 16]
        | _, _ => none
      else if c4 = '=' ∧ rest = [] then
        match decSextet c1, decSextet c2, decSextet c3 with
        | some s1, some s2, some s3 => some [s1 * 4 + s2 / 16, s2 % 16 * 16 + s3 / 4]
        | _, _, _ => none
      else
        match decSextet c1, decSextet c2, decSextet c3, decSextet c4, decodeB64Chars rest with
        | some s1, some s2, some s3, some s4, some bs =>
            some ((s1 * 4 + s2 / 16) :: (s2 % 16 * 16 + s3 / 4) :: (s3 % 4 * 64 + s4) :: bs)
        | _, _, _, _, _ => none
  | _ => none

/-- String-level base64 encoding of a byte list. -/
def encodeBase64 (bytes : List Nat) : String := String.mk (encodeB64Chars bytes)

/-- String-level base64 decoding back to a byte list. -/
def decodeBase64 (s : String) : Option (List Nat) := decodeB64Chars s.data

/-- JS `String.prototype.startsWith`, embedded over the character data. -/
def strStartsWith (s p : String) : Bool := s.data.take p.data.length == p.data

/-- Embedding of `validateSuiAddress`: rejects unless the string starts
with "0x" and has exactly 66 characters; the thrown message embeds the
offending address. -/
def validateSuiAddress (address : String) : Except String Unit :=
  if !strStartsWith address "0x" || address.length != 66 then
    .error (address ++ " is not a valid Sui address.")
  else
    .ok ()

/-- Coin metadata as returned by the remote node (the validator only tests
whether the result is present, never looks inside). -/
structure CoinMetadata where
  decimals : Nat
  name : String
  symbol : String

/-- Embedding of `validateSuiCoinType`.  The remote
`suiClient.getCoinMetadata` call is passed in as an `Except`-valued
outcome: `.error` when the lookup throws, `.ok none` when it resolves to a
null result, `.ok (some _)` when it resolves to a populated object.  The
inner null-check throw is caught by the surrounding catch and rethrown
with the same message, exactly as in the source. -/
def validateSuiCoinType (coinType : String)
    (getCoinMetadata : Except String (Option CoinMetadata)) : Except String Unit :=
  let body : Except String Unit :=
    match getCoinMetadata with
    | .error e => .error e
    | .ok coinTypeObject =>
        if coinTypeObject.isNone then
          .error (coinType ++ " is not a valid Sui coin type.")
        else
          .ok ()
  match body with
  | .error _ => .error (coinType ++ " is not a valid Sui coin type.")
  | .ok v => .ok v

/-- Embedding of `PumpFunTokenOptions` (all fields optional). -/
structure PumpFunTokenOptions where
  twitter : Option String
  telegram : Option String
  website : Option String
  initialBuyAmount : Option ℚ
  slippageBps : Option ℚ
  priorityFee : Option ℚ

/-- JS `x || d` on an optional number: an absent value and the falsy
number 0 both fall back to the default (NaN is not representable here). -/
def jsNumOr (x : Option ℚ) (d : ℚ) : ℚ :=
  match x with
  | none => d
  | some v => if v = 0 then d else v

/-- JS truthiness test on an optional string: absent and empty both fail. -/
def jsTruthyStr (x : Option String) : Option String :=
  match x with
  | none => none
  | some s => if s = "" then none else some s

/-- The `metadata` sub-object of the IPFS endpoint's JSON reply. -/
structure MetadataInner where
  name : String
  symbol : String

/-- The parsed JSON reply of the IPFS metadata-upload endpoint (only the
fields the code reads). -/
structure MetadataResult where
  metadata : MetadataInner
  metadataUri : String

/-- The multipart form POSTed to the IPFS endpoint: the text fields
appended to the form, the optional social fields (present only when
truthy), and the image bytes attached as the `file` part. -/
structure UploadRequest where
  name : String
  symbol : String
  description : String
  showName : String
  twitter : Option String
  telegram : Option String
  website : Option String
  file : List Nat

/-- Build the multipart form exactly as `uploadMetadata` does. -/
def buildUploadRequest (tokenName tokenTicker description : String)
    (options : Option PumpFunTokenOptions) (imageBlob : List Nat) : UploadRequest :=
  { name := tokenName
    symbol := tokenTicker
    description := description
    showName := "true"
    twitter := jsTruthyStr (options.bind fun o => o.twitter)
    telegram := jsTruthyStr (options.bind fun o => o.telegram)
    website := jsTruthyStr (options.bind fun o => o.website)
    file := imageBlob }

/-- A `fetch` response for the image URL: status line plus the fallible
`.blob()` body read (its value is the response's body bytes). -/
structure ImageResponse where
  status : Nat
  statusText : String
  blob : Except String (List Nat)

/-- `Response.ok`: status in the 2xx range. -/
def ImageResponse.ok (r : ImageResponse) : Bool := 200 ≤ r.status && r.status ≤ 299

/-- A `fetch` response from the IPFS upload endpoint: status line plus the
fallible `.json()` body read. -/
structure IpfsResponse where
  status : Nat
  statusText : String
  json : Except String MetadataResult

/-- `Response.ok`: status in the 2xx range. -/
def IpfsResponse.ok (r : IpfsResponse) : Bool := 200 ≤ r.status && r.status ≤ 299

/-- The network environment `uploadMetadata` runs against: the image
`fetch` (by URL) and the IPFS endpoint POST (by form body).  An `.error`
models the promise rejecting. -/
structure UploadEnv where
  imageFetch : String → Except String ImageResponse
  ipfsFetch : UploadRequest → Except String IpfsResponse

/-- Embedding of `uploadMetadata`.  Returns the function's outcome paired
with the list of POSTs actually issued to the IPFS endpoint.  The image
fetch and its body read share one try/catch that prefixes
"Failed to fetch image: "; the IPFS fetch's rejection is prefixed
"Failed to upload metadata: "; a non-2xx IPFS reply throws
"Metadata upload failed: " with the status text; otherwise the parsed
JSON body is returned. -/
def uploadMetadata (tokenName tokenTicker description imageUrl : String)
    (options : Option PumpFunTokenOptions) (env : UploadEnv) :
    Except String MetadataResult × List UploadRequest :=
  match (env.imageFetch imageUrl).bind (fun r => r.blob) with
  | .error e => (.error ("Failed to fetch image: " ++ e), [])
  | .ok imageBlob =>
      let req := buildUploadRequest tokenName tokenTicker description options imageBlob
      match env.ipfsFetch req with
      | .error e => (.error ("Failed to upload metadata: " ++ e), [req])
      | .ok metadataResponse =>
          if !metadataResponse.ok then
            (.error ("Metadata upload failed: " ++ metadataResponse.statusText), [req])
          else
            (metadataResponse.json, [req])

/-- The ephemeral mint keypair (`Keypair.generate()`); the public half goes
into the trade request, the secret half signs the returned transaction. -/
structure Keypair where
  publicKey : String
  secretKey : String

/-- The `tokenMetadata` sub-object of the trade request payload. -/
structure TokenMetadataPayload where
  name : String
  symbol : String
  uri : String

/-- The JSON payload POSTed to the trade-construction endpoint. -/
structure TradePayload where
  publicKey : String
  action : String
  tokenMetadata : TokenMetadataPayload
  mint : String
  denominatedInSol : String
  amount : ℚ
  slippage : ℚ
  priorityFee : ℚ
  pool : String

/-- The payload object built by `createTokenTransaction`, field for field. -/
def createTokenTransactionPayload (publicKey : String) (mintKeypair : Keypair)
    (metadataResponse : MetadataResult) (options : Option PumpFunTokenOptions) : TradePayload :=
  { publicKey := publicKey
    action := "create"
    tokenMetadata :=
      { name := metadataResponse.metadata.name
        symbol := metadataResponse.metadata.symbol
        uri := metadataResponse.metadataUri }
    mint := mintKeypair.publicKey
    denominatedInSol := "true"
    amount := jsNumOr (options.bind fun o => o.initialBuyAmount) 0
    slippage := jsNumOr (options.bind fun o => o.slippageBps) 10
    priorityFee := jsNumOr (options.bind fun o => o.priorityFee) (1 / 10000)
    pool := "pump" }

/-- A `fetch` response from the trade-construction endpoint: status line
plus the fallible `.text()` and `.arrayBuffer()` body reads. -/
structure TradeResponse where
  status : Nat
  statusText : String
  text : Except String String
  arrayBuffer : Except String (List Nat)

/-- `Response.ok`: status in the 2xx range. -/
def TradeResponse.ok (r : TradeResponse) : Bool := 200 ≤ r.status && r.status ≤ 299

/-- Embedding of `createTokenTransaction`: builds the payload, POSTs it
(the `tradeFetch` argument), and on a non-2xx reply reads the body text
and throws a message carrying the numeric status and that text; on a 2xx
reply the raw response is returned. -/
def createTokenTransaction (publicKey : String) (mintKeypair : Keypair)
    (metadataResponse : MetadataResult) (options : Option PumpFunTokenOptions)
    (tradeFetch : TradePayload → Except String TradeResponse) :
    Except String TradeResponse :=
  let payload := createTokenTransactionPayload publicKey mintKeypair metadataResponse options
  match tradeFetch payload with
  | .error e => .error e
  | .ok response =>
      if !response.ok then
        match response.text with
        | .error e => .error e
        | .ok errorText =>
            .error ("Transaction creation failed: " ++ toString response.status ++ " - " ++ errorText)
      else
        .ok response

/-- Modelled from the spec: a signature value of the external SDK, kept
symbolic as "the secret key that signed" plus "the message bytes signed";
the spec calls signing a single-signature addition over the deserialized
transaction. -/
structure TxSignature where
  signerSecret : String
  signedMessage : List Nat

/-- Modelled from the spec: producing one signature with a keypair's
private key over the transaction's message bytes. -/
def mkSignature (kp : Keypair) (message : List Nat) : TxSignature :=
  { signerSecret := kp.secretKey, signedMessage := message }

/-- Modelled from the spec: a versioned transaction as message bytes plus
a signature list (the internal layout is delegated to the external SDK and
kept opaque here). -/
structure VersionedTransaction where
  message : List Nat
  signatures : List TxSignature

/-- Modelled from the spec: `tx.sign([mintKeypair])` — "single-signature
addition; does not replace or verify existing signatures". -/
def VersionedTransaction.signWith (tx : VersionedTransaction) (kp : Keypair) :
    VersionedTransaction :=
  { tx with signatures := tx.signatures ++ [mkSignature kp tx.message] }

/-- Flatten a transaction to a number sequence (signature count, then each
signature's signer and message, then the message). -/
def txFlatten (tx : VersionedTransaction) : List Nat :=
  tx.signatures.length ::
    (tx.signatures.flatMap fun s => s.signerSecret.data.map Char.toNat ++ s.signedMessage)
    ++ tx.message

/-- Modelled from the spec: `tx.serialize()` — re-serialization of the
signed transaction "to raw bytes" (an opaque wire format; every output
value is a byte). -/
def serializeTx (tx : VersionedTransaction) : List Nat :=
  (txFlatten tx).map (· % 256)

/-- The environment `launchPumpFunToken` runs against: the freshly
generated mint keypair, the upload environment, the trade endpoint POST,
and the external SDK's fallible `VersionedTransaction.deserialize`. -/
structure LaunchEnv where
  mintKeypair : Keypair
  upload : UploadEnv
  tradeFetch : TradePayload → Except String TradeResponse
  deserialize : List Nat → Except String VersionedTransaction

/-- The requests a launch run issued: IPFS upload POSTs and trade POSTs. -/
structure LaunchTrace where
  ipfsRequests : List UploadRequest
  tradeRequests : List TradePayload

/-- The body of `launchPumpFunToken`'s try block: upload metadata, request
the transaction, read the body, deserialize, sign with the mint keypair,
serialize, base64-encode. -/
def launchPumpFunTokenBody (publicKey tokenName tokenTicker description imageUrl : String)
    (options : Option PumpFunTokenOptions) (env : LaunchEnv) :
    Except String String × LaunchTrace :=
  let mintKeypair := env.mintKeypair
  match uploadMetadata tokenName tokenTicker description imageUrl options env.upload with
  | (.error e, reqs) => (.error e, ⟨reqs, []⟩)
  | (.ok metadataResponse, reqs) =>
      let payload := createTokenTransactionPayload publicKey mintKeypair metadataResponse options
      match createTokenTransaction publicKey mintKeypair metadataResponse options env.tradeFetch with
      | .error e => (.error e, ⟨reqs, [payload]⟩)
      | .ok response =>
          match response.arrayBuffer with
          | .error e => (.error e, ⟨reqs, [payload]⟩)
          | .ok transactionData =>
              match env.deserialize transactionData with
              | .error e => (.error e, ⟨reqs, [payload]⟩)
              | .ok tx =>
                  let signed := tx.signWith mintKeypair
                  (.ok (encodeBase64 (serializeTx signed)), ⟨reqs, [payload]⟩)

/-- Embedding of `launchPumpFunToken`: the catch block logs and rethrows
the caught error unchanged, so the outcome is the body's outcome. -/
def launchPumpFunToken (publicKey tokenName tokenTicker description imageUrl : String)
    (options : Option PumpFunTokenOptions) (env : LaunchEnv) :
    Except String String × LaunchTrace :=
  match launchPumpFunTokenBody publicKey tokenName tokenTicker description imageUrl options env with
  | (.error e, tr) => (.error e, tr)
  | (.ok v, tr) => (.ok v, tr)

/-- Hexadecimal-digit test, used only to exhibit a non-hex address. -/
def isHexDigitChar (c : Char) : Bool :=
  c.isDigit || ('a' ≤ c && c ≤ 'f') || ('A' ≤ c && c ≤ 'F')

/-- A 66-character "0x"-prefixed string whose remaining 64 characters are
not hexadecimal digits. -/
def nonHexAddress : String :=
  "0xzzzzzzzzzzzzzzzzzzzzzzzzzzzzzzzzzzzzzzzzzzzzzzzzzzzzzzzzzzzzzzzz"

/-- Concrete mint keypair for witnesses. -/
def wKeypair : Keypair := { publicKey := "MintPub", secretKey := "MintSec" }

/-- Concrete metadata-upload result for witnesses. -/
def wMetaResult : MetadataResult := { metadata := { name := "T", symbol := "TICK" }, metadataUri := "ipfs-x" }

/-- Concrete non-2xx trade response for witnesses. -/
def wBadTradeResponse : TradeResponse :=
  { status := 400, statusText := "Bad Request", text := .ok "boom", arrayBuffer := .error "unread" }

/-- Concrete 2xx image response for witnesses. -/
def wImageResponse : ImageResponse := { status := 200, statusText := "OK", blob := .ok [1, 2, 3] }

/-- Concrete non-2xx metadata-upload response for witnesses. -/
def wBadIpfsResponse : IpfsResponse :=
  { status := 500, statusText := "Internal Server Error", json := .error "unread" }

/-- Concrete upload environment whose IPFS endpoint replies 500. -/
def wBadUploadEnv : UploadEnv :=
  { imageFetch := fun _ => .ok wImageResponse, ipfsFetch := fun _ => .ok wBadIpfsResponse }

/-- Concrete upload environment whose image fetch rejects. -/
def wFailImageUploadEnv : UploadEnv :=
  { imageFetch := fun _ => .error "network down", ipfsFetch := fun _ => .ok wBadIpfsResponse }

/-- Concrete 404 image response whose body still reads fine. -/
def wNotFoundImageResponse : ImageResponse :=
  { status := 404, statusText := "Not Found", blob := .ok [9, 9] }

/-- Concrete 2xx metadata-upload response for witnesses. -/
def wGoodIpfsResponse : IpfsResponse :=
  { status := 200, statusText := "OK", json := .ok wMetaResult }

/-- Concrete upload environment whose image fetch resolves with a 404. -/
def wNotFoundImageUploadEnv : UploadEnv :=
  { imageFetch := fun _ => .ok wNotFoundImageResponse, ipfsFetch := fun _ => .ok wGoodIpfsResponse }

/-- C2 counterexample: options with `slippageBps` provided as 0 — a falsy
JS number — give a payload whose slippage is the default 10, not the
provided 0, so the payload is not the one the claim describes. -/
def cexOptions : PumpFunTokenOptions :=
  { twitter := none, telegram := none, website := none,
    initialBuyAmount := none, slippageBps := some 0, priorityFee := none }

/-- Concrete options exercising provided-nonzero, provided-zero and absent
numeric fields. -/
def wOptions : PumpFunTokenOptions :=
  { twitter := some "tw", telegram := none, website := none,
    initialBuyAmount := some 2, slippageBps := some 5, priorityFee := some 0 }

/-- Concrete 2xx trade response carrying transaction bytes `[7, 8]`. -/
def wGoodTradeResponse : TradeResponse :=
  { status := 200, statusText := "OK", text := .ok "", arrayBuffer := .ok [7, 8] }

/-- Concrete upload environment where both calls succeed. -/
def wGoodUploadEnv : UploadEnv :=
  { imageFetch := fun _ => .ok wImageResponse, ipfsFetch := fun _ => .ok wGoodIpfsResponse }

/-- Concrete launch environment where every step succeeds; deserialization
reads the bytes as the message of a signature-less transaction. -/
def wLaunchEnv : LaunchEnv :=
  { mintKeypair := wKeypair
    upload := wGoodUploadEnv
    tradeFetch := fun _ => .ok wGoodTradeResponse
    deserialize := fun bs => .ok { message := bs, signatures := [] } }

/-- The signed transaction the concrete launch run produces. -/
def wSignedTx : VersionedTransaction :=
  VersionedTransaction.signWith { message := [7, 8], signatures := [] } wKeypair

/-- Concrete launch environment whose image fetch rejects. -/
def wFailLaunchEnv : LaunchEnv :=
  { mintKeypair := wKeypair
    upload := wFailImageUploadEnv
    tradeFetch := fun _ => .ok wGoodTradeResponse
    deserialize := fun bs => .ok { message := bs, signatures := [] } }

theorem decSextet_encSextet : ∀ n, n < 64 → decSextet (encSextet n) = some n := by decide

theorem encSextet_ne_pad : ∀ n, n < 64 → encSextet n ≠ '=' := by decide

theorem decodeB64_encodeB64 : ∀ l : List Nat, (∀ b ∈ l, b < 256) →
    decodeB64Chars (encodeB64Chars l) = some l
  | [], _ => rfl
  | [a], h => by
      have ha : a < 256 := h a (by simp)
      have h1 : a / 4 < 64 := by omega
      have h2 : a % 4 * 16 < 64 := by omega
      simp only [encodeB64Chars, decodeB64Chars]
      rw [if_pos (by simp)]
      rw [decSextet_encSextet _ h1, decSextet_encSextet _ h2]
      simp only [Option.some.injEq, List.cons.injEq, and_true]
      omega
  | [a, b], h => by
      have ha : a < 256 := h a (by simp)
      have hb : b < 256 := h b (by simp)
      have h1 : a / 4 < 64 := by omega
      have h2 : a % 4 * 16 + b / 16 < 64 := by omega
      have h3 : b % 16 * 4 < 64 := by omega
      simp only [encodeB64Chars, decodeB64Chars]
      rw [if_neg (by intro hc; exact encSextet_ne_pad _ h3 hc.1)]
      rw [if_pos (by simp)]
      rw [decSextet_encSextet _ h1, decSextet_encSextet _ h2, decSextet_encSextet _ h3]
      simp only [Option.some.injEq, List.cons.injEq, and_true]
      constructor
      · omega
      · omega
  | a :: b :: c :: rest, h => by
      have ha : a < 256 := h a (by simp)
      have hb : b < 256 := h b (by simp)
      have hc : c < 256 := h c (by simp)
      have ih := decodeB64_encodeB64 rest (fun x hx => h x (by simp [hx]))
      have h1 : a / 4 < 64 := by omega
      have h2 : a % 4 * 16 + b / 16 < 64 := by omega
      have h3 : b % 16 * 4 + c / 64 < 64 := by omega
      have h4 : c % 64 < 64 := by omega
      match rest with
      | [] =>
        simp only [encodeB64Chars, decodeB64Chars]
        rw [if_neg (by intro hcon; exact encSextet_ne_pad _ h3 hcon.1)]
        rw [if_neg (by intro hcon; exact encSextet_ne_pad _ h4 hcon.1)]
        rw [decSextet_encSextet _ h1, decSextet_encSextet _ h2,
            decSextet_encSextet _ h3, decSextet_encSextet _ h4]
        simp only [decodeB64Chars, Option.some.injEq, List.cons.injEq, and_true]
        refine ⟨by omega, by omega, by omega⟩
      | r :: rs =>
        have hr : r < 256 := h r (by simp)
        have enc_ne_nil : encodeB64Chars (r :: rs) ≠ [] := by
          match rs with
          | [] => simp [encodeB64Chars]
          | [x] => simp [encodeB64Chars]
          | x :: y :: zs => simp [encodeB64Chars]
        simp only [encodeB64Chars, decodeB64Chars] at ih ⊢
        rw [if_neg (by intro hcon; exact enc_ne_nil hcon.2.2)]
        rw [if_neg (by intro hcon; exact enc_ne_nil hcon.2)]
        rw [decSextet_encSextet _ h1, decSextet_encSextet _ h2,
            decSextet_encSextet _ h3, decSextet_encSextet _ h4]
        rw [ih]
        simp only [Option.some.injEq, List.cons.injEq, and_true]
        refine ⟨by omega, by omega, by omega⟩

theorem decodeBase64_encodeBase64 (l : List Nat) (h : ∀ b ∈ l, b < 256) :
    decodeBase64 (encodeBase64 l) = some l :=
  decodeB64_encodeB64 l h

lemma validateSuiAddress_ok_of {s : String}
    (h1 : strStartsWith s "0x" = true) (h2 : s.length = 66) :
    validateSuiAddress s = .ok () := by
  simp [validateSuiAddress, h1, h2]

lemma validateSuiAddress_error_of {s : String}
    (h : ¬(strStartsWith s "0x" = true ∧ s.length = 66)) :
    validateSuiAddress s = .error (s ++ " is not a valid Sui address.") := by
  rcases Bool.eq_false_or_eq_true (strStartsWith s "0x") with hb | hb
  · have hlen : s.length ≠ 66 := fun hl => h ⟨hb, hl⟩
    simp [validateSuiAddress, hb, hlen]
  · simp [validateSuiAddress, hb]

lemma serializeTx_bytes (tx : VersionedTransaction) : ∀ b ∈ serializeTx tx, b < 256 := by
  intro b hb
  simp only [serializeTx, List.mem_map] at hb
  obtain ⟨x, -, rfl⟩ := hb
  exact Nat.mod_lt _ (by norm_num)

/-- C3: for every string `s`, `validateSuiAddress` returns normally iff
`s` starts with "0x" and has exactly 66 characters; on any violation of
the prefix or length constraint it throws an error whose message contains
`s` itself. -/
theorem validateSuiAddress_format_spec (s : String) :
    (validateSuiAddress s = .ok () ↔ strStartsWith s "0x" = true ∧ s.length = 66) ∧
    (¬(strStartsWith s "0x" = true ∧ s.length = 66) →
      ∃ l r, validateSuiAddress s = .error (l ++ s ++ r)) := by
  constructor
  · constructor
    · intro h
      by_contra hc
      rw [validateSuiAddress_error_of hc] at h
      exact Except.noConfusion h
    · intro h
      exact validateSuiAddress_ok_of h.1 h.2
  · intro hc
    refine ⟨"", " is not a valid Sui address.", ?_⟩
    rw [validateSuiAddress_error_of hc]
    simp

/-- C3 witness: a concrete valid address is accepted and a concrete
invalid string is rejected with a message containing it. -/
theorem validateSuiAddress_format_spec_witness :
    validateSuiAddress
      "0xaaaaaaaaaaaaaaaaaaaaaaaaaaaaaaaaaaaaaaaaaaaaaaaaaaaaaaaaaaaaaaaa" = .ok () ∧
    ∃ l r, validateSuiAddress "abc" = .error (l ++ "abc" ++ r) :=
  ⟨(validateSuiAddress_format_spec
      "0xaaaaaaaaaaaaaaaaaaaaaaaaaaaaaaaaaaaaaaaaaaaaaaaaaaaaaaaaaaaaaaaa").1.mpr
      ⟨by decide, by decide⟩,
   (validateSuiAddress_format_spec "abc").2 (by decide)⟩

/-- C9: every 66-character string starting with "0x" is accepted by
`validateSuiAddress` — the validator checks only the prefix and the total
length, never the character set of the remaining 64 characters. -/
theorem validateSuiAddress_no_charset_check (s : String)
    (h1 : strStartsWith s "0x" = true) (h2 : s.length = 66) :
    validateSuiAddress s = .ok () :=
  validateSuiAddress_ok_of h1 h2

/-- C9 witness: a 66-character "0x" string all of whose remaining
characters are non-hex is accepted. -/
theorem validateSuiAddress_no_charset_check_witness :
    ((nonHexAddress.data.drop 2).all fun c => !isHexDigitChar c) = true ∧
    validateSuiAddress nonHexAddress = .ok () :=
  ⟨by decide, validateSuiAddress_no_charset_check nonHexAddress (by decide) (by decide)⟩

/-- C4: `validateSuiCoinType` throws iff the lookup throws or resolves to
an absent result, in both cases with the same generic message regardless
of the underlying cause, and returns normally when the lookup resolves to
a populated object. -/
theorem validateSuiCoinType_spec (coinType : String)
    (lookup : Except String (Option CoinMetadata)) :
    (((∃ e, lookup = .error e) ∨ lookup = .ok none) →
      validateSuiCoinType coinType lookup =
        .error (coinType ++ " is not a valid Sui coin type.")) ∧
    (∀ m, lookup = .ok (some m) → validateSuiCoinType coinType lookup = .ok ()) ∧
    (∀ e, validateSuiCoinType coinType lookup = .error e →
      e = coinType ++ " is not a valid Sui coin type.") := by
  refine ⟨?_, ?_, ?_⟩
  · rintro (⟨e, he⟩ | hn)
    · simp [validateSuiCoinType, he]
    · simp [validateSuiCoinType, hn]
  · intro m hm
    simp [validateSuiCoinType, hm]
  · intro e he
    rcases lookup with e' | o
    · simp [validateSuiCoinType] at he
      exact he.symm
    · rcases o with - | m
      · simp [validateSuiCoinType] at he
        exact he.symm
      · simp [validateSuiCoinType] at he

/-- C4 witness: a throwing lookup and a null lookup both produce the one
generic message; a populated lookup is accepted. -/
theorem validateSuiCoinType_spec_witness :
    validateSuiCoinType "0x2::sui::SUI" (.error "network down") =
      .error ("0x2::sui::SUI" ++ " is not a valid Sui coin type.") ∧
    validateSuiCoinType "0x2::sui::SUI" (.ok none) =
      .error ("0x2::sui::SUI" ++ " is not a valid Sui coin type.") ∧
    validateSuiCoinType "0x2::sui::SUI" (.ok (some ⟨9, "Sui", "SUI"⟩)) = .ok () :=
  ⟨(validateSuiCoinType_spec "0x2::sui::SUI" (.error "network down")).1 (.inl ⟨_, rfl⟩),
   (validateSuiCoinType_spec "0x2::sui::SUI" (.ok none)).1 (.inr rfl),
   (validateSuiCoinType_spec "0x2::sui::SUI" (.ok (some ⟨9, "Sui", "SUI"⟩))).2.1 _ rfl⟩

/-- C6: when the trade endpoint replies, a non-2xx reply makes
`createTokenTransaction` throw a message carrying the numeric status and
the reply's body text, and a 2xx reply is returned raw without throwing. -/
theorem createTokenTransaction_status_spec (publicKey : String) (mintKeypair : Keypair)
    (metadataResponse : MetadataResult) (options : Option PumpFunTokenOptions)
    (tradeFetch : TradePayload → Except String TradeResponse) (r : TradeResponse)
    (hf : tradeFetch (createTokenTransactionPayload publicKey mintKeypair metadataResponse options)
          = .ok r) :
    (r.ok = false → ∀ t, r.text = .ok t →
      createTokenTransaction publicKey mintKeypair metadataResponse options tradeFetch =
        .error ("Transaction creation failed: " ++ toString r.status ++ " - " ++ t)) ∧
    (r.ok = true →
      createTokenTransaction publicKey mintKeypair metadataResponse options tradeFetch = .ok r) := by
  constructor
  · intro hok t ht
    simp [createTokenTransaction, hf, hok, ht]
  · intro hok
    simp [createTokenTransaction, hf, hok]

/-- C6 witness: a concrete 400 reply with body "boom" produces the message
carrying both. -/
theorem createTokenTransaction_status_spec_witness :
    createTokenTransaction "userPub" wKeypair wMetaResult none (fun _ => .ok wBadTradeResponse) =
      .error ("Transaction creation failed: " ++ toString wBadTradeResponse.status ++ " - " ++ "boom") :=
  (createTokenTransaction_status_spec "userPub" wKeypair wMetaResult none
    (fun _ => .ok wBadTradeResponse) wBadTradeResponse rfl).1 (by decide) "boom" rfl

/-- C7: when the image step succeeded, a non-2xx reply from the metadata
endpoint makes `uploadMetadata` throw a message carrying the reply's
status text, and a 2xx reply's parsed JSON body is returned. -/
theorem uploadMetadata_status_spec (tokenName tokenTicker description imageUrl : String)
    (options : Option PumpFunTokenOptions) (env : UploadEnv) (imageBlob : List Nat)
    (resp : IpfsResponse)
    (himg : (env.imageFetch imageUrl).bind (fun r => r.blob) = .ok imageBlob)
    (hipfs : env.ipfsFetch (buildUploadRequest tokenName tokenTicker description options imageBlob)
             = .ok resp) :
    (resp.ok = false →
      (uploadMetadata tokenName tokenTicker description imageUrl options env).1 =
        .error ("Metadata upload failed: " ++ resp.statusText)) ∧
    (resp.ok = true →
      (uploadMetadata tokenName tokenTicker description imageUrl options env).1 = resp.json) := by
  constructor
  · intro hok
    simp [uploadMetadata, himg, hipfs, hok]
  · intro hok
    simp [uploadMetadata, himg, hipfs, hok]

/-- C7 witness: a concrete 500 reply produces the message carrying its
status text. -/
theorem uploadMetadata_status_spec_witness :
    (uploadMetadata "T" "TICK" "d" "img" none wBadUploadEnv).1 =
      .error ("Metadata upload failed: " ++ "Internal Server Error") :=
  (uploadMetadata_status_spec "T" "TICK" "d" "img" none wBadUploadEnv [1, 2, 3]
    wBadIpfsResponse rfl rfl).1 (by decide)

/-- C8: when the image fetch (or its body read) throws, `uploadMetadata`
throws with the "Failed to fetch image" message and issues no POST to the
metadata endpoint at all. -/
theorem uploadMetadata_image_failure_spec (tokenName tokenTicker description imageUrl : String)
    (options : Option PumpFunTokenOptions) (env : UploadEnv) (e : String)
    (himg : (env.imageFetch imageUrl).bind (fun r => r.blob) = .error e) :
    uploadMetadata tokenName tokenTicker description imageUrl options env =
      (.error ("Failed to fetch image: " ++ e), []) := by
  simp [uploadMetadata, himg]

/-- C8 witness: a rejecting image fetch yields the prefixed error and an
empty list of issued uploads. -/
theorem uploadMetadata_image_failure_spec_witness :
    uploadMetadata "T" "TICK" "d" "img" none wFailImageUploadEnv =
      (.error ("Failed to fetch image: " ++ "network down"), []) :=
  uploadMetadata_image_failure_spec "T" "TICK" "d" "img" none wFailImageUploadEnv "network down" rfl

/-- C10: when the image fetch resolves with a non-2xx status and its body
reads fine, `uploadMetadata` does not treat this as an image failure: it
puts the error response's body bytes into the form's `file` part and
issues the metadata POST. -/
theorem uploadMetadata_ignores_image_status (tokenName tokenTicker description imageUrl : String)
    (options : Option PumpFunTokenOptions) (env : UploadEnv) (r : ImageResponse)
    (imageBlob : List Nat)
    (hfetch : env.imageFetch imageUrl = .ok r) (hblob : r.blob = .ok imageBlob)
    (_hstatus : r.ok = false) :
    (uploadMetadata tokenName tokenTicker description imageUrl options env).2 =
      [buildUploadRequest tokenName tokenTicker description options imageBlob] ∧
    (buildUploadRequest tokenName tokenTicker description options imageBlob).file = imageBlob := by
  have himg : (env.imageFetch imageUrl).bind (fun x => x.blob) = .ok imageBlob := by
    rw [hfetch]
    exact hblob
  refine ⟨?_, rfl⟩
  simp only [uploadMetadata, himg]
  cases henv : env.ipfsFetch (buildUploadRequest tokenName tokenTicker description options imageBlob) with
  | error e => simp
  | ok resp => by_cases hok : resp.ok <;> simp [hok]

/-- C10 witness: with a 404 image response the POST is still issued, with
the 404 body bytes as the file content. -/
theorem uploadMetadata_ignores_image_status_witness :
    (uploadMetadata "T" "TICK" "d" "img" none wNotFoundImageUploadEnv).2 =
      [buildUploadRequest "T" "TICK" "d" none [9, 9]] ∧
    (buildUploadRequest "T" "TICK" "d" none [9, 9]).file = [9, 9] :=
  uploadMetadata_ignores_image_status "T" "TICK" "d" "img" none wNotFoundImageUploadEnv
    wNotFoundImageResponse [9, 9] rfl rfl (by decide)

/-- C2 counterexample theorem: `slippageBps` is provided (as 0) yet the
constructed payload's slippage is 10 ≠ 0. -/
theorem createTokenTransactionPayload_slippage_zero_cex :
    ((some cexOptions).bind fun o => o.slippageBps) = some 0 ∧
    (createTokenTransactionPayload "userPub" wKeypair wMetaResult (some cexOptions)).slippage = 10 ∧
    (10 : ℚ) ≠ (0 : ℚ) := by
  refine ⟨rfl, ?_, by norm_num⟩
  simp [createTokenTransactionPayload, jsNumOr, cexOptions]

/-- C2 (amended): the payload is exactly
`{publicKey, action:"create", tokenMetadata from the upload result,
mint := keypair's public key, denominatedInSol:"true", pool:"pump"}`, and
each numeric field follows the JS `x || default` rule: the provided value
when provided and nonzero, the default (0 / 10 / 0.0001) when absent or
provided as the falsy 0. -/
theorem createTokenTransactionPayload_fields (pk : String) (kp : Keypair)
    (m : MetadataResult) (opts : Option PumpFunTokenOptions) :
    (createTokenTransactionPayload pk kp m opts).publicKey = pk ∧
    (createTokenTransactionPayload pk kp m opts).action = "create" ∧
    (createTokenTransactionPayload pk kp m opts).tokenMetadata =
      { name := m.metadata.name, symbol := m.metadata.symbol, uri := m.metadataUri } ∧
    (createTokenTransactionPayload pk kp m opts).mint = kp.publicKey ∧
    (createTokenTransactionPayload pk kp m opts).denominatedInSol = "true" ∧
    (createTokenTransactionPayload pk kp m opts).pool = "pump" ∧
    ((opts.bind fun o => o.initialBuyAmount) = none →
      (createTokenTransactionPayload pk kp m opts).amount = 0) ∧
    (∀ v, (opts.bind fun o => o.initialBuyAmount) = some v →
      (createTokenTransactionPayload pk kp m opts).amount = if v = 0 then 0 else v) ∧
    ((opts.bind fun o => o.slippageBps) = none →
      (createTokenTransactionPayload pk kp m opts).slippage = 10) ∧
    (∀ v, (opts.bind fun o => o.slippageBps) = some v →
      (createTokenTransactionPayload pk kp m opts).slippage = if v = 0 then 10 else v) ∧
    ((opts.bind fun o => o.priorityFee) = none →
      (createTokenTransactionPayload pk kp m opts).priorityFee = 1 / 10000) ∧
    (∀ v, (opts.bind fun o => o.priorityFee) = some v →
      (createTokenTransactionPayload pk kp m opts).priorityFee = if v = 0 then 1 / 10000 else v) := by
  refine ⟨rfl, rfl, rfl, rfl, rfl, rfl, ?_, ?_, ?_, ?_, ?_, ?_⟩ <;>
    · intros
      simp [createTokenTransactionPayload, jsNumOr, *]

/-- C2 witness: with `slippageBps := 5` the slippage is 5; with
`priorityFee := 0` (falsy) it falls back to 0.0001; with no options the
amount is 0. -/
theorem createTokenTransactionPayload_fields_witness :
    (createTokenTransactionPayload "userPub" wKeypair wMetaResult (some wOptions)).slippage = 5 ∧
    (createTokenTransactionPayload "userPub" wKeypair wMetaResult (some wOptions)).priorityFee
      = 1 / 10000 ∧
    (createTokenTransactionPayload "userPub" wKeypair wMetaResult none).amount = 0 := by
  obtain ⟨-, -, -, -, -, -, -, -, -, hSlip, -, hPf⟩ :=
    createTokenTransactionPayload_fields "userPub" wKeypair wMetaResult (some wOptions)
  obtain ⟨-, -, -, -, -, -, hAmtNone, -⟩ :=
    createTokenTransactionPayload_fields "userPub" wKeypair wMetaResult none
  refine ⟨(hSlip 5 rfl).trans (by norm_num), (hPf 0 rfl).trans (by norm_num), hAmtNone rfl⟩

lemma launchPumpFunToken_eq_body (publicKey tokenName tokenTicker description imageUrl : String)
    (options : Option PumpFunTokenOptions) (env : LaunchEnv) :
    launchPumpFunToken publicKey tokenName tokenTicker description imageUrl options env =
      launchPumpFunTokenBody publicKey tokenName tokenTicker description imageUrl options env := by
  unfold launchPumpFunToken
  rcases h : launchPumpFunTokenBody publicKey tokenName tokenTicker description imageUrl options env
    with ⟨r, tr⟩
  cases r <;> rfl

lemma launchPumpFunToken_ok_elim {publicKey tokenName tokenTicker description imageUrl : String}
    {options : Option PumpFunTokenOptions} {env : LaunchEnv} {s : String}
    (h : (launchPumpFunToken publicKey tokenName tokenTicker description imageUrl options env).1
          = .ok s) :
    ∃ (m : MetadataResult) (reqs : List UploadRequest) (response : TradeResponse)
      (transactionData : List Nat) (tx : VersionedTransaction),
      uploadMetadata tokenName tokenTicker description imageUrl options env.upload
        = (.ok m, reqs) ∧
      createTokenTransaction publicKey env.mintKeypair m options env.tradeFetch = .ok response ∧
      response.arrayBuffer = .ok transactionData ∧
      env.deserialize transactionData = .ok tx ∧
      s = encodeBase64 (serializeTx (tx.signWith env.mintKeypair)) ∧
      (launchPumpFunToken publicKey tokenName tokenTicker description imageUrl options env).2 =
        ⟨reqs, [createTokenTransactionPayload publicKey env.mintKeypair m options]⟩ := by
  rcases hu : uploadMetadata tokenName tokenTicker description imageUrl options env.upload
    with ⟨ru, reqs⟩
  cases ru with
  | error e =>
    rw [launchPumpFunToken_eq_body] at h
    simp [launchPumpFunTokenBody, hu] at h
  | ok m =>
    rcases hc : createTokenTransaction publicKey env.mintKeypair m options env.tradeFetch
      with e | response
    · rw [launchPumpFunToken_eq_body] at h
      simp [launchPumpFunTokenBody, hu, hc] at h
    · rcases hb : response.arrayBuffer with e | transactionData
      · rw [launchPumpFunToken_eq_body] at h
        simp [launchPumpFunTokenBody, hu, hc, hb] at h
      · rcases hd : env.deserialize transactionData with e | tx
        · rw [launchPumpFunToken_eq_body] at h
          simp [launchPumpFunTokenBody, hu, hc, hb, hd] at h
        · refine ⟨m, reqs, response, transactionData, tx, rfl, hc, hb, hd, ?_, ?_⟩
          · rw [launchPumpFunToken_eq_body] at h
            simp [launchPumpFunTokenBody, hu, hc, hb, hd] at h
            exact h.symm
          · rw [launchPumpFunToken_eq_body]
            simp [launchPumpFunTokenBody, hu, hc, hb, hd]

/-- C1: whenever `launchPumpFunToken` succeeds, the one payload POSTed to
the trade endpoint carries the generated mint keypair's public key in its
`mint` field, and the returned base64 string decodes to the serialized
signed transaction, whose signature list is the deserialized
transaction's list with exactly one signature added, made with that
keypair's private key over the transaction's message. -/
theorem launchPumpFunToken_mint_signature_invariant
    (publicKey tokenName tokenTicker description imageUrl : String)
    (options : Option PumpFunTokenOptions) (env : LaunchEnv) (s : String)
    (h : (launchPumpFunToken publicKey tokenName tokenTicker description imageUrl options env).1
          = .ok s) :
    ∃ (m : MetadataResult) (tx : VersionedTransaction),
      (launchPumpFunToken publicKey tokenName tokenTicker description imageUrl options
          env).2.tradeRequests =
        [createTokenTransactionPayload publicKey env.mintKeypair m options] ∧
      (createTokenTransactionPayload publicKey env.mintKeypair m options).mint =
        env.mintKeypair.publicKey ∧
      decodeBase64 s = some (serializeTx (tx.signWith env.mintKeypair)) ∧
      (tx.signWith env.mintKeypair).signatures =
        tx.signatures ++ [mkSignature env.mintKeypair tx.message] := by
  obtain ⟨m, reqs, response, transactionData, tx, hu, hc, hb, hd, hs, htr⟩ :=
    launchPumpFunToken_ok_elim h
  refine ⟨m, tx, ?_, rfl, ?_, rfl⟩
  · rw [htr]
  · rw [hs]
    exact decodeBase64_encodeBase64 _ (serializeTx_bytes _)

/-- C1 witness: on the all-success environment the invariant holds at the
concrete returned string. -/
theorem launchPumpFunToken_mint_signature_invariant_witness :
    ∃ (m : MetadataResult) (tx : VersionedTransaction),
      (launchPumpFunToken "userPub" "T" "TICK" "d" "img" none wLaunchEnv).2.tradeRequests =
        [createTokenTransactionPayload "userPub" wLaunchEnv.mintKeypair m none] ∧
      (createTokenTransactionPayload "userPub" wLaunchEnv.mintKeypair m none).mint =
        wLaunchEnv.mintKeypair.publicKey ∧
      decodeBase64 (encodeBase64 (serializeTx wSignedTx)) =
        some (serializeTx (tx.signWith wLaunchEnv.mintKeypair)) ∧
      (tx.signWith wLaunchEnv.mintKeypair).signatures =
        tx.signatures ++ [mkSignature wLaunchEnv.mintKeypair tx.message] :=
  launchPumpFunToken_mint_signature_invariant "userPub" "T" "TICK" "d" "img" none wLaunchEnv
    (encodeBase64 (serializeTx wSignedTx)) rfl

/-- C5: every step failure of the launch sequence propagates to the caller
as that same error (the catch block only logs before rethrowing), and a
signed-transaction string is produced only when every step of the
sequence completes. -/
theorem launchPumpFunToken_error_propagation
    (publicKey tokenName tokenTicker description imageUrl : String)
    (options : Option PumpFunTokenOptions) (env : LaunchEnv) :
    (∀ e, (uploadMetadata tokenName tokenTicker description imageUrl options env.upload).1
            = .error e →
      (launchPumpFunToken publicKey tokenName tokenTicker description imageUrl options env).1
        = .error e) ∧
    (∀ (m : MetadataResult) (reqs : List UploadRequest) e,
      uploadMetadata tokenName tokenTicker description imageUrl options env.upload = (.ok m, reqs) →
      createTokenTransaction publicKey env.mintKeypair m options env.tradeFetch = .error e →
      (launchPumpFunToken publicKey tokenName tokenTicker description imageUrl options env).1
        = .error e) ∧
    (∀ (m : MetadataResult) (reqs : List UploadRequest) (response : TradeResponse) e,
      uploadMetadata tokenName tokenTicker description imageUrl options env.upload = (.ok m, reqs) →
      createTokenTransaction publicKey env.mintKeypair m options env.tradeFetch = .ok response →
      response.arrayBuffer = .error e →
      (launchPumpFunToken publicKey tokenName tokenTicker description imageUrl options env).1
        = .error e) ∧
    (∀ (m : MetadataResult) (reqs : List UploadRequest) (response : TradeResponse)
        (transactionData : List Nat) e,
      uploadMetadata tokenName tokenTicker description imageUrl options env.upload = (.ok m, reqs) →
      createTokenTransaction publicKey env.mintKeypair m options env.tradeFetch = .ok response →
      response.arrayBuffer = .ok transactionData →
      env.deserialize transactionData = .error e →
      (launchPumpFunToken publicKey tokenName tokenTicker description imageUrl options env).1
        = .error e) ∧
    (∀ s,
      (launchPumpFunToken publicKey tokenName tokenTicker description imageUrl options env).1
        = .ok s →
      ∃ (m : MetadataResult) (reqs : List UploadRequest) (response : TradeResponse)
        (transactionData : List Nat) (tx : VersionedTransaction),
        uploadMetadata tokenName tokenTicker description imageUrl options env.upload
          = (.ok m, reqs) ∧
        createTokenTransaction publicKey env.mintKeypair m options env.tradeFetch = .ok response ∧
        response.arrayBuffer = .ok transactionData ∧
        env.deserialize transactionData = .ok tx ∧
        s = encodeBase64 (serializeTx (tx.signWith env.mintKeypair))) := by
  refine ⟨?_, ?_, ?_, ?_, ?_⟩
  · intro e he
    rcases hu : uploadMetadata tokenName tokenTicker description imageUrl options env.upload
      with ⟨ru, reqs⟩
    rw [hu] at he
    simp only at he
    rw [launchPumpFunToken_eq_body]
    simp [launchPumpFunTokenBody, hu, he]
  · intro m reqs e hu hc
    rw [launchPumpFunToken_eq_body]
    simp [launchPumpFunTokenBody, hu, hc]
  · intro m reqs response e hu hc hb
    rw [launchPumpFunToken_eq_body]
    simp [launchPumpFunTokenBody, hu, hc, hb]
  · intro m reqs response transactionData e hu hc hb hd
    rw [launchPumpFunToken_eq_body]
    simp [launchPumpFunTokenBody, hu, hc, hb, hd]
  · intro s hs
    obtain ⟨m, reqs, response, transactionData, tx, hu, hc, hb, hd, henc, -⟩ :=
      launchPumpFunToken_ok_elim hs
    exact ⟨m, reqs, response, transactionData, tx, hu, hc, hb, hd, henc⟩

/-- C5 witness: with a rejecting image fetch the launch returns exactly
the upload step's error. -/
theorem launchPumpFunToken_error_propagation_witness :
    (launchPumpFunToken "userPub" "T" "TICK" "d" "img" none wFailLaunchEnv).1 =
      .error ("Failed to fetch image: " ++ "network down") :=
  (launchPumpFunToken_error_propagation "userPub" "T" "TICK" "d" "img" none wFailLaunchEnv).1
    ("Failed to fetch image: " ++ "network down") rfl
